import Mathlib

/-!
Verification of the OMDb search/watchlist application (`src/script.js`)
against its natural-language specification.

The script is shallowly embedded: each JavaScript function becomes a Lean
definition over explicit state.  Browser/host builtins that the script
delegates to (`JSON.stringify`/`JSON.parse` on the watchlist schema,
`localStorage` as an `Option String` cell, the DOM grid and modal as record
states) are modelled explicitly; everything else is translated line by line
from the source.
-/

/-- Watchlist entry / summary record as stored by `addToWatchlist`
(`{Title, Year, Poster, imdbID}` — all OMDb fields are strings). -/
structure Movie where
  Title : String
  Year : String
  Poster : String
  imdbID : String
deriving DecidableEq, Repr

/-! ### JSON codec for the watchlist schema

`saveWatchlist` calls `JSON.stringify(watchlist)` and `loadWatchlist` calls
`JSON.parse(raw)`.  These host builtins are modelled concretely on the
watchlist schema (an array of four-string-field objects), including JSON
string escaping of the quote and backslash characters.  `jsonDecList`
returns `none` exactly where `JSON.parse` would throw a `SyntaxError` on
such inputs. -/

/-- JSON escaping of one character inside a string literal
(quote and backslash are escaped with a backslash). -/
def jsonEscChar (c : Char) : List Char :=
  if c = '"' ∨ c = '\\' then ['\\', c] else [c]

/-- Encode a JSON string literal: opening quote, escaped body, closing quote. -/
def jsonEncStr (s : List Char) : List Char :=
  '"' :: ((s.map jsonEscChar).flatten ++ ['"'])

/-- Decode the body of a JSON string literal (after the opening quote):
returns the decoded characters and the rest of the input past the closing
quote, or `none` if the literal is unterminated. -/
def jsonDecStrAux : List Char → Option (List Char × List Char)
  | [] => none
  | c :: rest =>
    if c = '"' then some ([], rest)
    else if c = '\\' then
      match rest with
      | [] => none
      | d :: rest2 =>
        match jsonDecStrAux rest2 with
        | some (s, r) => some (d :: s, r)
        | none => none
    else
      match jsonDecStrAux rest with
      | some (s, r) => some (c :: s, r)
      | none => none

/-- Decode a JSON string literal including its opening quote. -/
def jsonDecStr : List Char → Option (List Char × List Char)
  | c :: rest => if c = '"' then jsonDecStrAux rest else none
  | [] => none

/-- Consume an expected literal prefix, returning the rest of the input. -/
def dropLit : List Char → List Char → Option (List Char)
  | [], r => some r
  | _ :: _, [] => none
  | c :: cs, d :: r => if c = d then dropLit cs r else none

/-- Key/punctuation fragments of the serialized object, as produced by
`JSON.stringify` on a watchlist entry. -/
def keyTitle : List Char := ['\x7b', '"', 'T', 'i', 't', 'l', 'e', '"', ':']

def keyYear : List Char := [',', '"', 'Y', 'e', 'a', 'r', '"', ':']

def keyPoster : List Char := [',', '"', 'P', 'o', 's', 't', 'e', 'r', '"', ':']

def keyImdbID : List Char := [',', '"', 'i', 'm', 'd', 'b', 'I', 'D', '"', ':']

def closeBrace : List Char := ['\x7d']

/-- Serialize one watchlist entry, as `JSON.stringify` does for
`{Title, Year, Poster, imdbID}`. -/
def jsonEncMovie (m : Movie) : List Char :=
  keyTitle ++ jsonEncStr m.Title.data
    ++ keyYear ++ jsonEncStr m.Year.data
    ++ keyPoster ++ jsonEncStr m.Poster.data
    ++ keyImdbID ++ jsonEncStr m.imdbID.data
    ++ closeBrace

/-- Parse one serialized watchlist entry, returning it and the rest of the
input. -/
def jsonDecMovie (l : List Char) : Option (Movie × List Char) :=
  match dropLit keyTitle l with
  | none => none
  | some r1 =>
  match jsonDecStr r1 with
  | none => none
  | some (t, r2) =>
  match dropLit keyYear r2 with
  | none => none
  | some r3 =>
  match jsonDecStr r3 with
  | none => none
  | some (y, r4) =>
  match dropLit keyPoster r4 with
  | none => none
  | some r5 =>
  match jsonDecStr r5 with
  | none => none
  | some (p, r6) =>
  match dropLit keyImdbID r6 with
  | none => none
  | some r7 =>
  match jsonDecStr r7 with
  | none => none
  | some (i, r8) =>
  match dropLit closeBrace r8 with
  | none => none
  | some r9 => some (⟨String.mk t, String.mk y, String.mk p, String.mk i⟩, r9)

/-- Serialize a watchlist, as `JSON.stringify` does for an array of entries. -/
def jsonEncList : List Movie → List Char
  | [] => ['[', ']']
  | m :: rest =>
    '[' :: (jsonEncMovie m
      ++ (rest.map (fun x => ',' :: jsonEncMovie x)).flatten ++ [']'])

/-- Parse a comma-separated nonempty sequence of entries terminated by `]`,
with fuel bounding the number of entries. -/
def jsonDecItems : Nat → List Char → Option (List Movie × List Char)
  | 0, _ => none
  | fuel + 1, l =>
    match jsonDecMovie l with
    | none => none
    | some (m, r) =>
      match r with
      | ',' :: r2 =>
        match jsonDecItems fuel r2 with
        | some (ms, r3) => some (m :: ms, r3)
        | none => none
      | ']' :: r2 => some ([m], r2)
      | _ => none

/-- Parse a serialized watchlist; `none` models `JSON.parse` throwing a
`SyntaxError` (the whole input must be consumed). -/
def jsonDecList (l : List Char) : Option (List Movie) :=
  match l with
  | '[' :: r =>
    if r = [']'] then some []
    else
      match jsonDecItems (r.length + 1) r with
      | some (ms, r3) => if r3 = [] then some ms else none
      | none => none
  | _ => none

/-- Model of `JSON.stringify(watchlist)`. -/
def stringifyWatchlist (ms : List Movie) : String :=
  String.mk (jsonEncList ms)

/-- Model of `JSON.parse(raw)` on the watchlist schema; `none` means the
parse throws. -/
def parseWatchlist (s : String) : Option (List Movie) :=
  jsonDecList s.data

/-! ### Watchlist store (`loadWatchlist`, `saveWatchlist`, `isInWatchlist`,
`addToWatchlist`, `removeFromWatchlist`) -/

/-- Model of `loadWatchlist()`: `localStorage.getItem` yields `raw`
(`none` = JS `null`); the source runs `watchlist = raw ? JSON.parse(raw) : []`
with no exception handler, so an unparseable value makes `JSON.parse`
throw — modelled as `Except.error`.  A `none` or empty-string `raw` is
falsy and yields the empty list. -/
def loadWatchlist (raw : Option String) : Except String (List Movie) :=
  match raw with
  | none => .ok []
  | some s =>
    if s = "" then .ok []
    else
      match parseWatchlist s with
      | some ms => .ok ms
      | none => .error "SyntaxError: JSON.parse"

/-- Model of `isInWatchlist(imdbID)`: `watchlist.some((m) => m.imdbID === imdbID)`. -/
def isInWatchlist (imdbID : String) (watchlist : List Movie) : Bool :=
  watchlist.any (fun m => m.imdbID == imdbID)

/-- The mutable module state: the in-memory `watchlist` array and the
`localStorage` cell under `WATCHLIST_KEY`. -/
structure AppStore where
  watchlist : List Movie
  stored : Option String
deriving DecidableEq, Repr

/-- Model of `saveWatchlist()`:
`localStorage.setItem(WATCHLIST_KEY, JSON.stringify(watchlist))`. -/
def saveWatchlist (st : AppStore) : AppStore :=
  { st with stored := some (stringifyWatchlist st.watchlist) }

/-- The `toSave` projection in `addToWatchlist` (keeps the four compact fields). -/
def toSave (movie : Movie) : Movie :=
  { Title := movie.Title, Year := movie.Year
    Poster := movie.Poster, imdbID := movie.imdbID }

/-- Model of `addToWatchlist(movie)`: no-op if the id is already present,
otherwise push `toSave` and persist. -/
def addToWatchlist (movie : Movie) (st : AppStore) : AppStore :=
  if isInWatchlist movie.imdbID st.watchlist then st
  else saveWatchlist { st with watchlist := st.watchlist ++ [toSave movie] }

/-- Model of `removeFromWatchlist(imdbID)`:
`watchlist = watchlist.filter((m) => m.imdbID !== imdbID)` then persist. -/
def removeFromWatchlist (imdbID : String) (st : AppStore) : AppStore :=
  saveWatchlist { st with watchlist := st.watchlist.filter (fun m => m.imdbID != imdbID) }

/-- Number of entries in a watchlist bearing a given id. -/
def countId (imdbID : String) (watchlist : List Movie) : Nat :=
  watchlist.countP (fun m => m.imdbID == imdbID)

/-! ### `escapeHtml` and card rendering -/

/-- Replace every occurrence of the single character `c` by `repl`
(the effect of `String.prototype.replace` with a global single-character
pattern). -/
def replaceAllChar (c : Char) (repl : List Char) (l : List Char) : List Char :=
  (l.map (fun d => if d = c then repl else [d])).flatten

/-- The chain of five global replaces in `escapeHtml`, applied in source
order: `&`, then `<`, `>`, `"`, `'`. -/
def escChainChars (l : List Char) : List Char :=
  replaceAllChar '\u0027' "&#039;".data
    (replaceAllChar '"' "&quot;".data
      (replaceAllChar '>' "&gt;".data
        (replaceAllChar '<' "&lt;".data
          (replaceAllChar '&' "&amp;".data l))))

/-- The string-valued part of `escapeHtml`: the five replaces applied to
`String(text)`. -/
def escapeHtmlStr (s : String) : String :=
  String.mk (escChainChars s.data)

/-- JavaScript values that can reach `escapeHtml` (strings, numbers,
booleans, `null`, `undefined`, `NaN`). -/
inductive JSVal where
  | vNull
  | vUndefined
  | vNaN
  | vBool (b : Bool)
  | vNum (n : Int)
  | vStr (s : String)
deriving DecidableEq, Repr

/-- JavaScript truthiness of a `JSVal`. -/
def jsTruthy : JSVal → Bool
  | .vNull => false
  | .vUndefined => false
  | .vNaN => false
  | .vBool b => b
  | .vNum n => n != 0
  | .vStr s => s != ""

/-- JavaScript `String(text)` coercion. -/
def jsString : JSVal → String
  | .vNull => "null"
  | .vUndefined => "undefined"
  | .vNaN => "NaN"
  | .vBool b => if b then "true" else "false"
  | .vNum n => toString n
  | .vStr s => s

/-- Model of `escapeHtml(text)`: `if (!text && text !== 0) return ''` then
`String(text)` through the five replaces. -/
def escapeHtml (text : JSVal) : String :=
  if !jsTruthy text ∧ text ≠ .vNum 0 then ""
  else escapeHtmlStr (jsString text)

/-- Per-character summary of the five replaces (used to state what
`escapeHtml` does to each input character). -/
def htmlEntity (c : Char) : List Char :=
  if c = '&' then "&amp;".data
  else if c = '<' then "&lt;".data
  else if c = '>' then "&gt;".data
  else if c = '"' then "&quot;".data
  else if c = '\u0027' then "&#039;".data
  else [c]

/-- The placeholder poster URL used when `Poster === 'N/A'`. -/
def placeholderPoster : String :=
  "https://via.placeholder.com/300x450?text=No+Image"

/-- The `poster` local: `movie.Poster !== 'N/A' ? movie.Poster : placeholder`. -/
def posterOf (p : String) : String :=
  if p != "N/A" then p else placeholderPoster

/-- The `card.innerHTML` template literal of `renderMovies` (lines 82–88;
`renderWatchlist` builds the identical markup at lines 249–255).  Note the
interpolated poster URL is NOT passed through `escapeHtml`, unlike the
title and year. -/
def renderCardHtml (movie : Movie) : String :=
  "\n\t\t\t<img class=\"movie-poster\" src=\"" ++ posterOf movie.Poster
    ++ "\" alt=\"" ++ escapeHtml (.vStr movie.Title) ++ " poster\">\n\t\t\t<div class=\"movie-info\">\n\t\t\t\t<h3 class=\"movie-title\" title=\""
    ++ escapeHtml (.vStr movie.Title) ++ "\">" ++ escapeHtml (.vStr movie.Title)
    ++ "</h3>\n\t\t\t\t<div class=\"movie-year\">" ++ escapeHtml (.vStr movie.Year)
    ++ "</div>\n\t\t\t</div>\n\t\t"

/-! ### Search flow (`searchForm` submit handler and `fetchMovies`) -/

/-- A network request issued by the script (URLs abstracted to their query
payload). -/
inductive Request where
  | search (query : String)
  | details (imdbID : String)
deriving DecidableEq, Repr

/-- Possible outcomes of the awaited `fetch`/`response.json()` pair in
`fetchMovies`: a non-2xx status, a thrown network/parsing error, or a
parsed payload carrying `data.Response` and `data.Search`
(`none` when `Array.isArray(data.Search)` is false or the field is absent). -/
inductive FetchOutcome where
  | httpError (status : Nat) (statusText : String)
  | jsThrow
  | payload (response : String) (search : Option (List Movie))
deriving DecidableEq, Repr

/-- The results grid (`#movie-results`) content after a submit: either an
inline message (its exact `innerHTML`) or rendered movie cards. -/
inductive GridState where
  | message (html : String)
  | movieCards (movies : List Movie)
deriving DecidableEq, Repr

/-- Inline message shown for empty input (line 28). -/
def emptyInputHtml : String :=
  "<div class=\"no-results\">Please enter a movie title.</div>"

/-- Inline message shown for a non-2xx HTTP status (line 51). -/
def httpErrorHtml : String :=
  "<div class=\"no-results\">Sorry, something went wrong while fetching results. Please try again later.</div>"

/-- Inline message shown when `fetch`/`json()` throws (line 67). -/
def networkErrorHtml : String :=
  "<div class=\"no-results\">Network error. Please check your connection and try again.</div>"

/-- Inline no-match message (line 62), with the query escaped. -/
def noResultsHtml (query : String) : String :=
  "<div class=\"no-results\">No results found for \"" ++ escapeHtml (.vStr query)
    ++ "\".</div>"

/-- The `try` block body of `fetchMovies`: everything up to the `catch`.
`Except.error` marks the points where the awaited operations throw. -/
def fetchMoviesBody (query : String) (outcome : FetchOutcome) : Except String GridState :=
  match outcome with
  | .httpError _ _ => .ok (.message httpErrorHtml)
  | .jsThrow => .error "fetch or response.json() threw"
  | .payload response search =>
    if response = "True" then
      match search with
      | some movies => .ok (.movieCards movies)
      | none => .ok (.message (noResultsHtml query))
    else .ok (.message (noResultsHtml query))

/-- Model of `fetchMovies(query)`: one search request is issued, and the
`catch` converts any thrown error into the network-error message.  Returns
the resulting grid state and the list of requests issued. -/
def fetchMovies (query : String) (outcome : FetchOutcome) : GridState × List Request :=
  (match fetchMoviesBody query outcome with
   | .ok g => g
   | .error _ => .message networkErrorHtml,
   [.search query])

/-- Model of `String.prototype.trim`: strip leading and trailing
whitespace. -/
def jsTrim (s : String) : String :=
  String.mk (((s.data.dropWhile Char.isWhitespace).reverse.dropWhile
    Char.isWhitespace).reverse)

/-- Model of the `searchForm` submit handler (lines 22–34): trim the input;
if it is falsy show the empty-input message and issue no request, else call
`fetchMovies`. -/
def handleSearchSubmit (input : String) (outcome : FetchOutcome) : GridState × List Request :=
  let query := jsTrim input
  if query = "" then (.message emptyInputHtml, [])
  else fetchMovies query outcome

/-! ### Details overlay (`openDetailsModal`) -/

/-- A full detail record from the by-id endpoint (all OMDb fields are
strings; an absent field is the empty string, which is falsy like
`undefined` under the `||` fallbacks the source applies). -/
structure Details where
  Title : String
  Year : String
  imdbRating : String
  Genre : String
  Director : String
  Actors : String
  Plot : String
  Poster : String
deriving DecidableEq, Repr

/-- JavaScript `a || b` on strings (empty string is falsy). -/
def jsOrStr (a b : String) : String :=
  if a = "" then b else a

/-- The details overlay DOM state: visibility plus the text/attribute
fields `openDetailsModal` writes. -/
structure ModalState where
  visible : Bool
  posterSrc : String
  posterAlt : String
  title : String
  yearRating : String
  genre : String
  director : String
  actors : String
  plot : String
deriving DecidableEq, Repr

/-- The synchronous prefix of `openDetailsModal` (lines 163–172): clear the
fields, set the loading title, show the modal.  The requested id is not
recorded anywhere in the overlay state. -/
def detailsStart (st : ModalState) : ModalState :=
  { st with
    visible := true
    posterSrc := ""
    title := "Loading..."
    yearRating := ""
    genre := ""
    director := ""
    actors := ""
    plot := "" }

/-- The continuation of `openDetailsModal` after `await fetchMovieDetails`
(lines 175–189): written unconditionally — no check that the overlay still
targets the id this call requested. -/
def detailsFinish (data : Option Details) (st : ModalState) : ModalState :=
  match data with
  | none =>
    { st with
      title := "Details not available"
      plot := "Could not load details. Please try again later." }
  | some d =>
    { st with
      posterSrc := posterOf d.Poster
      posterAlt := escapeHtml (.vStr d.Title) ++ " poster"
      title := jsOrStr d.Title ""
      yearRating := jsOrStr d.Year "" ++ " â€¢ Rating: " ++ jsOrStr d.imdbRating "N/A"
      genre := "Genre: " ++ jsOrStr d.Genre "N/A"
      director := "Director: " ++ jsOrStr d.Director "N/A"
      actors := "Cast: " ++ jsOrStr d.Actors "N/A"
      plot := jsOrStr d.Plot "" }

/-- Event-loop events of the details flow: `invoke id` is a click running
the synchronous prefix (and issuing the fetch for `id`); `resolve id data`
is that fetch settling and the continuation running with its `data`. -/
inductive DetailsEvent where
  | invoke (imdbID : String)
  | resolve (imdbID : String) (data : Option Details)
deriving DecidableEq, Repr

/-- One event-loop step of the details flow, as the source executes it. -/
def stepDetails (st : ModalState) : DetailsEvent → ModalState
  | .invoke _ => detailsStart st
  | .resolve _ data => detailsFinish data st

/-- Run a sequence of details events from a modal state. -/
def runDetails (st : ModalState) (evs : List DetailsEvent) : ModalState :=
  evs.foldl stepDetails st

/-- The overlay before any interaction (all fields empty, hidden). -/
def initialModal : ModalState :=
  { visible := false, posterSrc := "", posterAlt := "", title := "",
    yearRating := "", genre := "", director := "", actors := "", plot := "" }

/-! ## Codec lemmas: `JSON.parse` inverts `JSON.stringify` on the
watchlist schema -/

theorem mk_data (s : String) : String.mk s.data = s := rfl

theorem jsonDecStrAux_enc (s rest : List Char) :
    jsonDecStrAux ((s.map jsonEscChar).flatten ++ '"' :: rest) = some (s, rest) := by
  induction s with
  | nil =>
    rw [List.map_nil, List.flatten_nil, List.nil_append, jsonDecStrAux.eq_def]
    simp
  | cons c s ih =>
    by_cases h : c = '"' ∨ c = '\\'
    · have he : jsonEscChar c = ['\\', c] := by simp [jsonEscChar, h]
      simp only [List.map_cons, he, List.flatten_cons, List.cons_append,
        List.append_assoc]
      rw [jsonDecStrAux.eq_def]
      simp only [List.append_assoc] at ih
      simp [ih]
    · push_neg at h
      have he : jsonEscChar c = [c] := by simp [jsonEscChar, h.1, h.2]
      simp only [List.map_cons, he, List.flatten_cons, List.cons_append]
      rw [jsonDecStrAux.eq_def]
      simp [h.1, h.2, ih]

theorem jsonDecStr_enc (s rest : List Char) :
    jsonDecStr (jsonEncStr s ++ rest) = some (s, rest) := by
  simp [jsonEncStr, jsonDecStr, List.append_assoc, jsonDecStrAux_enc]

theorem dropLit_append (l r : List Char) : dropLit l (l ++ r) = some r := by
  induction l with
  | nil => simp [dropLit]
  | cons c cs ih => simp [dropLit, ih]

theorem jsonDecMovie_enc (m : Movie) (rest : List Char) :
    jsonDecMovie (jsonEncMovie m ++ rest) = some (m, rest) := by
  simp [jsonEncMovie, jsonDecMovie, List.append_assoc, dropLit_append,
    jsonDecStr_enc, mk_data]

theorem sepFlatten_length_ge (ms : List Movie) :
    ms.length ≤ ((ms.map (fun x => ',' :: jsonEncMovie x)).flatten).length := by
  induction ms with
  | nil => simp
  | cons m ms ih =>
    simp only [List.map_cons, List.flatten_cons, List.length_append,
      List.length_cons]
    omega

theorem jsonDecItems_enc (ms : List Movie) : ∀ (fuel : Nat) (m : Movie) (rest : List Char),
    ms.length + 1 ≤ fuel →
    jsonDecItems fuel
      (jsonEncMovie m ++ ((ms.map (fun x => ',' :: jsonEncMovie x)).flatten ++ ']' :: rest))
      = some (m :: ms, rest) := by
  induction ms with
  | nil =>
    intro fuel m rest hf
    obtain ⟨f, rfl⟩ : ∃ f, fuel = f + 1 := ⟨fuel - 1, by omega⟩
    rw [jsonDecItems.eq_def]
    simp [jsonDecMovie_enc]
  | cons m2 ms ih =>
    intro fuel m rest hf
    obtain ⟨f, rfl⟩ : ∃ f, fuel = f + 1 := ⟨fuel - 1, by omega⟩
    simp only [List.map_cons, List.flatten_cons, List.cons_append,
      List.append_assoc]
    have harg := ih f m2 rest (by simp only [List.length_cons] at hf; omega)
    rw [jsonDecItems.eq_def]
    simp [jsonDecMovie_enc, harg]

theorem jsonDecList_enc (ms : List Movie) : jsonDecList (jsonEncList ms) = some ms := by
  cases ms with
  | nil => simp [jsonEncList, jsonDecList]
  | cons m ms =>
    have hlen : 9 ≤ (jsonEncMovie m).length := by
      simp [jsonEncMovie, keyTitle, List.length_append]
    have hne : jsonEncMovie m ++ (ms.map (fun x => ',' :: jsonEncMovie x)).flatten ++ [']'] ≠ [']'] := by
      intro h
      have : (jsonEncMovie m ++ (ms.map (fun x => ',' :: jsonEncMovie x)).flatten ++ [']']).length
          = ([']'] : List Char).length := by rw [h]
      simp [List.length_append] at this
      omega
    have hfuel : ms.length + 1 ≤
        (jsonEncMovie m ++ (ms.map (fun x => ',' :: jsonEncMovie x)).flatten ++ [']']).length + 1 := by
      have h1 := sepFlatten_length_ge ms
      simp only [List.length_append, List.length_cons, List.length_nil]
      omega
    simp only [jsonEncList, jsonDecList]
    rw [if_neg hne, List.append_assoc]
    rw [jsonDecItems_enc ms _ m [] (by simpa [List.append_assoc] using hfuel)]
    simp

theorem parse_stringify (ms : List Movie) :
    parseWatchlist (stringifyWatchlist ms) = some ms := by
  simpa [parseWatchlist, stringifyWatchlist] using jsonDecList_enc ms

theorem stringify_ne_empty (ms : List Movie) : stringifyWatchlist ms ≠ "" := by
  intro h
  have hd : (stringifyWatchlist ms).data = ("" : String).data := by rw [h]
  cases ms <;> simp [stringifyWatchlist, jsonEncList] at hd

/-! ## `escapeHtml` lemmas -/

theorem replaceAllChar_append (c : Char) (r l1 l2 : List Char) :
    replaceAllChar c r (l1 ++ l2) = replaceAllChar c r l1 ++ replaceAllChar c r l2 := by
  simp [replaceAllChar]

theorem escChainChars_append (l1 l2 : List Char) :
    escChainChars (l1 ++ l2) = escChainChars l1 ++ escChainChars l2 := by
  simp [escChainChars, replaceAllChar_append]

theorem escChainChars_eq_entities (l : List Char) :
    escChainChars l = (l.map htmlEntity).flatten := by
  induction l with
  | nil => rfl
  | cons c l ih =>
    have hsplit : escChainChars (c :: l) = escChainChars [c] ++ escChainChars l := by
      have hc : (c :: l) = [c] ++ l := rfl
      rw [hc, escChainChars_append]
    rw [hsplit, ih, List.map_cons, List.flatten_cons]
    congr 1
    by_cases h1 : c = '&'
    · subst h1; decide
    by_cases h2 : c = '<'
    · subst h2; decide
    by_cases h3 : c = '>'
    · subst h3; decide
    by_cases h4 : c = '"'
    · subst h4; decide
    by_cases h5 : c = '\u0027'
    · subst h5; decide
    simp [escChainChars, replaceAllChar, htmlEntity, h1, h2, h3, h4, h5]

theorem htmlEntity_no_markup (c d : Char) (hd : d ∈ htmlEntity c) :
    d ≠ '<' ∧ d ≠ '>' ∧ d ≠ '"' ∧ d ≠ '\u0027' := by
  by_cases h1 : c = '&'
  · subst h1
    exact (by decide :
      ∀ x ∈ htmlEntity '&', x ≠ '<' ∧ x ≠ '>' ∧ x ≠ '"' ∧ x ≠ '\u0027') d hd
  by_cases h2 : c = '<'
  · subst h2
    exact (by decide :
      ∀ x ∈ htmlEntity '<', x ≠ '<' ∧ x ≠ '>' ∧ x ≠ '"' ∧ x ≠ '\u0027') d hd
  by_cases h3 : c = '>'
  · subst h3
    exact (by decide :
      ∀ x ∈ htmlEntity '>', x ≠ '<' ∧ x ≠ '>' ∧ x ≠ '"' ∧ x ≠ '\u0027') d hd
  by_cases h4 : c = '"'
  · subst h4
    exact (by decide :
      ∀ x ∈ htmlEntity '"', x ≠ '<' ∧ x ≠ '>' ∧ x ≠ '"' ∧ x ≠ '\u0027') d hd
  by_cases h5 : c = '\u0027'
  · subst h5
    exact (by decide :
      ∀ x ∈ htmlEntity '\u0027', x ≠ '<' ∧ x ≠ '>' ∧ x ≠ '"' ∧ x ≠ '\u0027') d hd
  have he : htmlEntity c = [c] := by simp [htmlEntity, h1, h2, h3, h4, h5]
  rw [he] at hd
  simp at hd
  subst hd
  exact ⟨h2, h3, h4, h5⟩

theorem escapeHtml_vStr (s : String) : escapeHtml (.vStr s) = escapeHtmlStr s := by
  by_cases h : s = ""
  · subst h; decide
  · simp [escapeHtml, jsTruthy, jsString, h]

/-! ## Message distinctness lemmas -/

theorem noResults_ne_http (q : String) : noResultsHtml q ≠ httpErrorHtml := by
  intro h
  have hsplit : (noResultsHtml q).data
      = "<div class=\"no-results\">No results found for \"".data
        ++ ((escapeHtml (.vStr q)).data ++ "\".</div>".data) := by
    simp [noResultsHtml, String.data_append, List.append_assoc]
  have h24 : (noResultsHtml q).data[24]? = some 'N' := by
    rw [hsplit, List.getElem?_append_left (by decide)]
    decide
  rw [h] at h24
  have h24' : httpErrorHtml.data[24]? = some 'S' := by decide
  rw [h24'] at h24
  exact absurd h24 (by decide)

theorem noResults_ne_network (q : String) : noResultsHtml q ≠ networkErrorHtml := by
  intro h
  have hsplit : (noResultsHtml q).data
      = "<div class=\"no-results\">No results found for \"".data
        ++ ((escapeHtml (.vStr q)).data ++ "\".</div>".data) := by
    simp [noResultsHtml, String.data_append, List.append_assoc]
  have h25 : (noResultsHtml q).data[25]? = some 'o' := by
    rw [hsplit, List.getElem?_append_left (by decide)]
    decide
  rw [h] at h25
  have h25' : networkErrorHtml.data[25]? = some 'e' := by decide
  rw [h25'] at h25
  exact absurd h25 (by decide)

/-! ## Store lemmas -/

theorem countId_filter_length (l : List Movie) (id : String) :
    (l.filter (fun m => m.imdbID != id)).length
      = l.length - l.countP (fun m => m.imdbID == id) := by
  induction l with
  | nil => rfl
  | cons m l ih =>
    have hle := List.countP_le_length (p := fun m => m.imdbID == id) (l := l)
    by_cases h : m.imdbID = id
    · simp [List.filter_cons, List.countP_cons, h, ih]
    · simp [List.filter_cons, List.countP_cons, h, ih, bne_iff_ne]
      omega

theorem countId_append (id : String) (l1 l2 : List Movie) :
    countId id (l1 ++ l2) = countId id l1 + countId id l2 := by
  simp [countId]

/-! ## Claims C1, C6, C3, C4 -/

/-- Claim C1, counterexample: the persisted value `"\x7b"` (a lone opening
brace) is present but unparseable, yet `loadWatchlist` does not yield the
empty collection — `JSON.parse` throws and the error escapes `load`,
contradicting the claim that an unparseable value is treated as empty
rather than fatal. -/
theorem c1_load_counterexample :
    loadWatchlist (some "\x7b") = .error "SyntaxError: JSON.parse"
    ∧ loadWatchlist (some "\x7b") ≠ .ok [] := by
  refine ⟨rfl, fun h => ?_⟩
  exact Except.noConfusion h

/-- Claim C1, amended: `load()` yields the parsed collection when the
persisted value is present and parseable, and the empty collection when it
is absent (or the empty string); but an unparseable persisted value is NOT
treated as empty — `JSON.parse` throws and the exception propagates out of
`loadWatchlist` (there is no handler). -/
theorem c1_load_amended (raw : Option String) :
    (raw = none → loadWatchlist raw = .ok [])
    ∧ (raw = some "" → loadWatchlist raw = .ok [])
    ∧ (∀ s ms, raw = some s → s ≠ "" → parseWatchlist s = some ms →
        loadWatchlist raw = .ok ms)
    ∧ (∀ s, raw = some s → s ≠ "" → parseWatchlist s = none →
        loadWatchlist raw = .error "SyntaxError: JSON.parse") := by
  refine ⟨?_, ?_, ?_, ?_⟩
  · rintro rfl; rfl
  · rintro rfl; rfl
  · rintro s ms rfl hs hp
    simp [loadWatchlist, hs, hp]
  · rintro s rfl hs hp
    simp [loadWatchlist, hs, hp]

/-- Claim C1, witness: the amended theorem evaluated at a parseable and at
an unparseable stored value. -/
theorem c1_load_witness :
    loadWatchlist (some "[]") = .ok []
    ∧ loadWatchlist (some "\x7b") = .error "SyntaxError: JSON.parse" :=
  ⟨(c1_load_amended (some "[]")).2.2.1 "[]" [] rfl (by decide) (by decide),
   (c1_load_amended (some "\x7b")).2.2.2 "\x7b" rfl (by decide) (by decide)⟩

/-- Claim C6: a full save→load round trip is the identity on the watchlist,
preserving the entry set and its order: loading the exact string
`saveWatchlist` persists yields the same list. -/
theorem c6_save_load_roundtrip (ms : List Movie) :
    loadWatchlist (some (stringifyWatchlist ms)) = .ok ms := by
  have hne := stringify_ne_empty ms
  simp [loadWatchlist, hne, parse_stringify]

/-- Claim C3, counterexample: with two entries sharing the id `"a"` (a
state `load()` accepts from externally written storage), removing the
present id `"a"` removes both entries — the collection shrinks by two, not
by exactly one. -/
theorem c3_remove_counterexample :
    isInWatchlist "a" [⟨"T", "2000", "P", "a"⟩, ⟨"T", "2000", "P", "a"⟩] = true
    ∧ (removeFromWatchlist "a"
        ⟨[⟨"T", "2000", "P", "a"⟩, ⟨"T", "2000", "P", "a"⟩], none⟩).watchlist.length
      ≠ ([⟨"T", "2000", "P", "a"⟩, ⟨"T", "2000", "P", "a"⟩] : List Movie).length - 1 := by
  decide

/-- Claim C3, amended: removing an id not present leaves the collection
unchanged; removing a present id removes ALL entries bearing that id, so
the size drops by the number of matching entries — exactly one precisely
when the id occurs once (as `addToWatchlist` maintains) — and the new
state is persisted. -/
theorem c3_remove_amended (st : AppStore) (imdbID : String) :
    ((∀ m ∈ st.watchlist, m.imdbID ≠ imdbID) →
      (removeFromWatchlist imdbID st).watchlist = st.watchlist)
    ∧ (removeFromWatchlist imdbID st).watchlist.length
        = st.watchlist.length - countId imdbID st.watchlist
    ∧ (countId imdbID st.watchlist = 1 →
        (removeFromWatchlist imdbID st).watchlist.length = st.watchlist.length - 1)
    ∧ (removeFromWatchlist imdbID st).stored
        = some (stringifyWatchlist (removeFromWatchlist imdbID st).watchlist) := by
  refine ⟨?_, ?_, ?_, rfl⟩
  · intro h
    simp only [removeFromWatchlist, saveWatchlist]
    rw [List.filter_eq_self]
    intro a ha
    simpa [bne_iff_ne] using h a ha
  · simp only [removeFromWatchlist, saveWatchlist, countId]
    exact countId_filter_length st.watchlist imdbID
  · intro h1
    simp only [removeFromWatchlist, saveWatchlist]
    rw [countId_filter_length st.watchlist imdbID]
    rw [countId] at h1
    rw [h1]

/-- Claim C3, witness: the amended theorem evaluated on a singleton
watchlist, for an absent id (no-op) and for the present id (size drops by
its count, here one). -/
theorem c3_remove_witness :
    (removeFromWatchlist "b" ⟨[⟨"T", "2000", "P", "a"⟩], none⟩).watchlist
      = [⟨"T", "2000", "P", "a"⟩]
    ∧ (removeFromWatchlist "a" ⟨[⟨"T", "2000", "P", "a"⟩], none⟩).watchlist.length
      = ([⟨"T", "2000", "P", "a"⟩] : List Movie).length - 1 :=
  ⟨(c3_remove_amended ⟨[⟨"T", "2000", "P", "a"⟩], none⟩ "b").1 (by decide),
   (c3_remove_amended ⟨[⟨"T", "2000", "P", "a"⟩], none⟩ "a").2.2.1 (by decide)⟩

/-- Claim C4, counterexample: starting from a state whose watchlist already
holds the id `"a"` twice (acceptable to `load()` from externally written
storage), adding a movie with id `"a"` twice leaves TWO entries for that
id, not exactly one — both adds are no-ops. -/
theorem c4_add_counterexample :
    countId "a" (addToWatchlist ⟨"T", "2000", "P", "a"⟩
      (addToWatchlist ⟨"T", "2000", "P", "a"⟩
        ⟨[⟨"T", "2000", "P", "a"⟩, ⟨"T", "2000", "P", "a"⟩], none⟩)).watchlist = 2
    ∧ (2 : Nat) ≠ 1 := by
  decide

/-- Claim C4, amended: `add` is a no-op when the external-id is already
present, and otherwise appends the compact entry and persists; hence
adding the same id twice never introduces a duplicate — afterwards the
number of entries for that id is `max (previous count) 1`, which is
exactly one whenever the id was not already duplicated in the prior
state. -/
theorem c4_add_amended (st : AppStore) (movie : Movie) :
    (isInWatchlist movie.imdbID st.watchlist = true → addToWatchlist movie st = st)
    ∧ (isInWatchlist movie.imdbID st.watchlist = false →
        (addToWatchlist movie st).watchlist = st.watchlist ++ [toSave movie]
        ∧ (addToWatchlist movie st).stored
            = some (stringifyWatchlist (st.watchlist ++ [toSave movie])))
    ∧ countId movie.imdbID
        (addToWatchlist movie (addToWatchlist movie st)).watchlist
      = max (countId movie.imdbID st.watchlist) 1 := by
  refine ⟨?_, ?_, ?_⟩
  · intro h
    simp [addToWatchlist, h]
  · intro h
    constructor <;> simp [addToWatchlist, saveWatchlist, h]
  · by_cases h : isInWatchlist movie.imdbID st.watchlist
    · have hno : addToWatchlist movie st = st := by simp [addToWatchlist, h]
      rw [hno, hno]
      have hpos : 1 ≤ countId movie.imdbID st.watchlist := by
        rw [countId]
        simp only [isInWatchlist, List.any_eq_true] at h
        obtain ⟨x, hx, hpx⟩ := h
        have hp : 0 < List.countP (fun m => m.imdbID == movie.imdbID) st.watchlist :=
          List.countP_pos_iff.mpr ⟨x, hx, hpx⟩
        omega
      exact (Nat.max_eq_left hpos).symm
    · have h' : isInWatchlist movie.imdbID st.watchlist = false := by
        simpa using h
      have hzero : countId movie.imdbID st.watchlist = 0 := by
        rw [countId, List.countP_eq_zero]
        simp only [isInWatchlist, List.any_eq_false] at h'
        exact h'
      have hfirst : (addToWatchlist movie st).watchlist
          = st.watchlist ++ [toSave movie] := by
        simp [addToWatchlist, saveWatchlist, h']
      have hsecond_in : isInWatchlist movie.imdbID
          (addToWatchlist movie st).watchlist = true := by
        rw [hfirst]
        simp [isInWatchlist, toSave]
      have hsecond : addToWatchlist movie (addToWatchlist movie st)
          = addToWatchlist movie st := by
        rw [addToWatchlist.eq_def, hsecond_in]
        simp
      rw [hsecond, hfirst, countId_append, hzero]
      simp [countId, toSave]

/-- Claim C4, witness: the amended theorem evaluated on the empty store:
adding a movie twice yields exactly one entry for its id, and the first
add appends and persists. -/
theorem c4_add_witness :
    countId "a" (addToWatchlist ⟨"T", "2000", "P", "a"⟩
      (addToWatchlist ⟨"T", "2000", "P", "a"⟩ ⟨[], none⟩)).watchlist
      = max (countId "a" ([] : List Movie)) 1
    ∧ (addToWatchlist ⟨"T", "2000", "P", "a"⟩ ⟨[], none⟩).watchlist
      = [] ++ [toSave ⟨"T", "2000", "P", "a"⟩] :=
  ⟨(c4_add_amended ⟨[], none⟩ ⟨"T", "2000", "P", "a"⟩).2.2,
   ((c4_add_amended ⟨[], none⟩ ⟨"T", "2000", "P", "a"⟩).2.1 (by decide)).1⟩

/-! ## Claims C2, C5, C7, C8, C9, C10 -/

/-- Claim C2, counterexample: open details for id "A", then for id "B";
B's fetch resolves first and A's stale response resolves after it — the
overlay ends up titled with A's data ("Alpha"), not B's ("Beta").  The
continuation writes fields unconditionally; there is no check that the
overlay still targets the originally requested id. -/
theorem c2_details_counterexample :
    (runDetails initialModal
      [.invoke "A", .invoke "B",
       .resolve "B" (some ⟨"Beta", "2002", "7", "G", "D", "Ac", "P", "N/A"⟩),
       .resolve "A" (some ⟨"Alpha", "2001", "8", "G", "D", "Ac", "P", "N/A"⟩)]).title
      = "Alpha"
    ∧ (runDetails initialModal
      [.invoke "A", .invoke "B",
       .resolve "B" (some ⟨"Beta", "2002", "7", "G", "D", "Ac", "P", "N/A"⟩),
       .resolve "A" (some ⟨"Alpha", "2001", "8", "G", "D", "Ac", "P", "N/A"⟩)]).title
      ≠ "Beta" := by
  constructor <;> decide

/-- Claim C2, amended: when details are opened for A then B and the fetches
resolve B first, A second, the overlay shows the data of whichever
response is applied LAST — A's stale data — because `openDetailsModal`
writes the resolved fields unconditionally, with no originally-requested-id
check. -/
theorem c2_details_amended (st : ModalState) (a b : String) (dA dB : Details) :
    (runDetails st [.invoke a, .invoke b, .resolve b (some dB),
        .resolve a (some dA)]).title = jsOrStr dA.Title ""
    ∧ (runDetails st [.invoke a, .invoke b, .resolve b (some dB),
        .resolve a (some dA)]).plot = jsOrStr dA.Plot ""
    ∧ runDetails st [.invoke a, .invoke b, .resolve b (some dB),
        .resolve a (some dA)]
      = detailsFinish (some dA)
          (detailsFinish (some dB) (detailsStart (detailsStart st))) :=
  ⟨rfl, rfl, rfl⟩

/-- Claim C5: the poster URL is interpolated into the card markup
UNESCAPED (`src="${poster}"`), unlike the title and year.  A poster value
containing a double-quote closes the `src` attribute and its remainder is
parsed as markup: the rendered card for a movie whose poster is
`x" onerror="alert(1)` contains the raw attribute-breaking fragment, while
`escapeHtml` applied to that poster would have left no raw quote. -/
theorem c5_poster_unescaped :
    "src=\"x\" onerror=\"alert(1)\"".data
      <:+: (renderCardHtml ⟨"T", "2000", "x\" onerror=\"alert(1)", "tt1"⟩).data
    ∧ '"' ∉ (escapeHtmlStr "x\" onerror=\"alert(1)").data := by
  constructor <;> decide

/-- Claim C7: a successful payload that signals no matches (OMDb sets
`Response` ≠ `"True"`, or `Search` is not an array) renders the no-match
message, and that message differs from both error messages. -/
theorem c7_no_match_message (query response : String) (search : Option (List Movie))
    (h : response ≠ "True" ∨ search = none) :
    (fetchMovies query (.payload response search)).1
      = .message (noResultsHtml query)
    ∧ noResultsHtml query ≠ httpErrorHtml
    ∧ noResultsHtml query ≠ networkErrorHtml := by
  refine ⟨?_, noResults_ne_http query, noResults_ne_network query⟩
  rcases h with h | h
  · simp [fetchMovies, fetchMoviesBody, h]
  · subst h
    by_cases hr : response = "True" <;> simp [fetchMovies, fetchMoviesBody, hr]

/-- Claim C7, witness: the theorem evaluated at the OMDb no-match payload
(`Response: "False"`, no `Search` array). -/
theorem c7_no_match_witness :
    (fetchMovies "zzz" (.payload "False" none)).1
      = .message (noResultsHtml "zzz")
    ∧ noResultsHtml "zzz" ≠ httpErrorHtml
    ∧ noResultsHtml "zzz" ≠ networkErrorHtml :=
  c7_no_match_message "zzz" "False" none (Or.inl (by decide))

/-- Claim C8: a non-2xx status renders the HTTP error message, a thrown
transport/parsing error is converted by the `catch` into the network error
message (so nothing propagates out of `fetchMovies`, which is total), and
every outcome issues exactly the single original search request — no
automatic retry. -/
theorem c8_error_reported_not_thrown (query statusText : String) (status : Nat) :
    fetchMovies query (.httpError status statusText)
      = (.message httpErrorHtml, [.search query])
    ∧ fetchMovies query .jsThrow = (.message networkErrorHtml, [.search query])
    ∧ ∀ outcome, (fetchMovies query outcome).2 = [.search query] :=
  ⟨rfl, rfl, fun _ => rfl⟩

/-- Claim C9: input that trims to the empty string issues no request and
shows the empty-input message. -/
theorem c9_empty_input (input : String) (outcome : FetchOutcome)
    (h : jsTrim input = "") :
    handleSearchSubmit input outcome = (.message emptyInputHtml, []) := by
  simp [handleSearchSubmit, h]

/-- Claim C9, witness: the theorem evaluated at whitespace-only input. -/
theorem c9_empty_input_witness :
    handleSearchSubmit "   " .jsThrow = (.message emptyInputHtml, []) :=
  c9_empty_input "   " .jsThrow (by decide)

/-- Claim C10: `escapeHtml` is total; every falsy input other than the
number 0 yields the empty string, 0 yields "0", a string input goes
through the five replaces, whose net effect maps each character to its
HTML entity, and the output never contains a raw `<`, `>`, `"` or `'`
(each such input character, and every `&`, is replaced by its entity). -/
theorem c10_escapeHtml_spec :
    (∀ v, jsTruthy v = false → v ≠ .vNum 0 → escapeHtml v = "")
    ∧ escapeHtml (.vNum 0) = "0"
    ∧ (∀ s, escapeHtml (.vStr s) = escapeHtmlStr s)
    ∧ (∀ s, (escapeHtmlStr s).data = (s.data.map htmlEntity).flatten)
    ∧ (∀ s d, d ∈ (escapeHtmlStr s).data →
        d ≠ '<' ∧ d ≠ '>' ∧ d ≠ '"' ∧ d ≠ '\u0027') := by
  refine ⟨?_, by decide, escapeHtml_vStr, ?_, ?_⟩
  · intro v hf h0
    simp [escapeHtml, hf, h0]
  · intro s
    simp [escapeHtmlStr, escChainChars_eq_entities]
  · intro s d hd
    have hd' : d ∈ (s.data.map htmlEntity).flatten := by
      simpa [escapeHtmlStr, escChainChars_eq_entities] using hd
    rw [List.mem_flatten] at hd'
    obtain ⟨piece, hpiece, hdp⟩ := hd'
    rw [List.mem_map] at hpiece
    obtain ⟨c, _, rfl⟩ := hpiece
    exact htmlEntity_no_markup c d hdp

/-- Claim C10, witness: the theorem evaluated at each falsy value, and at a
concrete string/output character. -/
theorem c10_escapeHtml_witness :
    escapeHtml .vNull = "" ∧ escapeHtml .vUndefined = "" ∧ escapeHtml .vNaN = ""
    ∧ escapeHtml (.vBool false) = "" ∧ escapeHtml (.vStr "") = ""
    ∧ ('&' ≠ '<' ∧ '&' ≠ '>' ∧ '&' ≠ '"' ∧ '&' ≠ '\u0027') :=
  ⟨c10_escapeHtml_spec.1 .vNull (by decide) (by decide),
   c10_escapeHtml_spec.1 .vUndefined (by decide) (by decide),
   c10_escapeHtml_spec.1 .vNaN (by decide) (by decide),
   c10_escapeHtml_spec.1 (.vBool false) (by decide) (by decide),
   c10_escapeHtml_spec.1 (.vStr "") (by decide) (by decide),
   c10_escapeHtml_spec.2.2.2.2 "a<b" '&' (by decide)⟩
